import Mathlib

/-!
Verification development for the compliance check/fix backend
(`src/backend/server.js`).  The dynamically-typed JSON payloads that the
server receives from the external management API are modelled by the
inductive type `JValue`; the checkers, the check orchestrator and the fix
orchestrator are shallowly embedded as Lean functions over the outcomes of
the remote calls they perform (an outcome is `Except String α`: `.error`
models a thrown/rejected promise, `.ok` a resolved one).
-/

namespace DelveSB

/-- A JavaScript runtime value, as far as the backend inspects them.
`undefined` is the value of a missing object property. -/
inductive JValue where
  | undefined : JValue
  | null : JValue
  | bool : Bool → JValue
  | num : Int → JValue
  | str : String → JValue
  | arr : List JValue → JValue
  | obj : List (String × JValue) → JValue
deriving Repr

/-- JavaScript truthiness (`if (v)`); arrays and objects are always truthy. -/
def jsTruthy : JValue → Bool
  | JValue.undefined => false
  | JValue.null => false
  | JValue.bool b => b
  | JValue.num n => n != 0
  | JValue.str s => s != ""
  | JValue.arr _ => true
  | JValue.obj _ => true

/-- `Array.isArray(v)`. -/
def jsIsArray : JValue → Bool
  | JValue.arr _ => true
  | _ => false

/-- Property access `v.k`; yields `undefined` when the property is missing
or the value is not an object (the backend only dereferences objects, so
the throwing cases of JavaScript property access never arise). -/
def jsField (v : JValue) (k : String) : JValue :=
  match v with
  | JValue.obj fs =>
      match fs.find? (fun p => p.1 == k) with
      | some p => p.2
      | none => JValue.undefined
  | _ => JValue.undefined

/-- JavaScript `a && b` (value-returning). -/
def jsAnd (a b : JValue) : JValue :=
  if jsTruthy a then b else a

/-- JavaScript `a || b` (value-returning). -/
def jsOr (a b : JValue) : JValue :=
  if jsTruthy a then a else b

/-- Strict equality `v === s` against a string literal. -/
def jsStrictEqStr (v : JValue) (s : String) : Bool :=
  match v with
  | JValue.str t => t == s
  | _ => false

/-- Strict equality `v === true` against the boolean literal `true`. -/
def jsIsTrue : JValue → Bool
  | JValue.bool b => b
  | _ => false

mutual
/-- JavaScript string coercion, used by template literals; an array
renders as its elements joined by commas (`null`/`undefined` elements
render empty inside a join). -/
def jsToString : JValue → String
  | JValue.undefined => "undefined"
  | JValue.null => "null"
  | JValue.bool b => if b then "true" else "false"
  | JValue.num n => toString n
  | JValue.str s => s
  | JValue.arr xs => jsJoinComma xs
  | JValue.obj _ => "[object Object]"

/-- `Array.prototype.join(',')` over already-coerced elements. -/
def jsJoinComma : List JValue → String
  | [] => ""
  | [JValue.undefined] => ""
  | [JValue.null] => ""
  | [x] => jsToString x
  | JValue.undefined :: xs => "," ++ jsJoinComma xs
  | JValue.null :: xs => "," ++ jsJoinComma xs
  | x :: xs => jsToString x ++ "," ++ jsJoinComma xs
end

/-- `v.length` for arrays (the backend only reads it on arrays). -/
def jsLength : JValue → Nat
  | JValue.arr xs => xs.length
  | _ => 0

/-- Index access `v[0]`. -/
def jsIndex0 : JValue → JValue
  | JValue.arr (x :: _) => x
  | _ => JValue.undefined

/-- The elements of an array value (the backend maps over results it has
already established to be arrays). -/
def jsElems : JValue → List JValue
  | JValue.arr xs => xs
  | _ => []

/-! ## Evidence recorder (shape only) and the remote query executor -/

/-- One evidence record, reduced to the fields the claims mention. -/
structure Evidence where
  action : String
  status : String
deriving Repr, DecidableEq

/-- Response normalization inside `executeQuery` (server.js lines 190-196):
`if (response.data && Array.isArray(response.data)) results =
response.data.length > 0 && Array.isArray(response.data[0]) ?
response.data[0] : response.data;` with `results` initialised to `[]`. -/
def normalizeResults (data : JValue) : List JValue :=
  if jsTruthy data && jsIsArray data then
    if jsLength data > 0 && jsIsArray (jsIndex0 data) then
      jsElems (jsIndex0 data)
    else
      jsElems data
  else []

/-- The spec's description of the normalization, stated as its own
function: a nested array-of-arrays unwraps one level; any other array is
the flat row list; absent/non-array payload yields empty rows. -/
def normalizeResultsSpec : JValue → List JValue
  | JValue.arr (JValue.arr ys :: _) => ys
  | JValue.arr xs => xs
  | _ => []

/-- `executeQuery` (server.js lines 169-224), as a function of the outcome
of the POST to the SQL endpoint.  It records an attempt entry, then either
normalizes and records success, or records a failure entry and re-raises
(`Except.error`).  The evidence log is threaded explicitly. -/
def executeQuery (resp : Except String JValue) (log : List Evidence) :
    Except String (List JValue) × List Evidence :=
  let attempted := log ++ [{ action := "sql_query_attempt", status := "info" }]
  match resp with
  | Except.ok data =>
      (Except.ok (normalizeResults data),
       attempted ++ [{ action := "sql_query_success", status := "success" }])
  | Except.error e =>
      (Except.error e,
       attempted ++ [{ action := "sql_query_failure", status := "error" }])

/-! ## Compliance summaries and the three checkers -/

/-- `{total, passing, failing}` as produced by the checkers. -/
structure Summary where
  total : Nat
  passing : Nat
  failing : Nat
deriving Repr, DecidableEq

/-- The OR-chain of MFA signals over the auth config (server.js lines
410-412): `(authConfig.sms_provider && authConfig.sms_provider !== 'NONE')
|| authConfig.mfa_enabled || authConfig.external_mfa_enabled`. -/
def mfaSignal (cfg : JValue) : JValue :=
  jsOr
    (jsOr
      (jsAnd (jsField cfg "sms_provider")
        (JValue.bool (!jsStrictEqStr (jsField cfg "sms_provider") "NONE")))
      (jsField cfg "mfa_enabled"))
    (jsField cfg "external_mfa_enabled")

/-- `const mfaEnabled = authConfig && (...)` (server.js line 409). -/
def mfaEnabledValue (cfg : JValue) : JValue :=
  jsAnd cfg (mfaSignal cfg)

/-- One mapped user of the MFA check (server.js lines 447-452). -/
structure MfaUser where
  id : JValue
  email : JValue
  hasMFA : JValue
  status : String
deriving Repr

/-- `result.map(user => ({id, email, hasMFA: user.has_mfa, status:
user.has_mfa ? 'pass' : 'fail'}))`. -/
def mkMfaUser (u : JValue) : MfaUser :=
  { id := jsField u "id"
    email := jsField u "email"
    hasMFA := jsField u "has_mfa"
    status := if jsTruthy (jsField u "has_mfa") then "pass" else "fail" }

/-- The value the MFA checker resolves to: either the success payload
(server.js lines 491-496) or the degraded error payload (lines 509-512). -/
structure MfaCheckResult where
  error : Option String
  mfaEnabledGlobally : Option JValue
  users : List MfaUser
  summary : Summary
deriving Repr

/-- The MFA checker (server.js lines 388-514), as a function of the
auth-config fetch outcome and the per-user SQL query outcome.  The user
query is wrapped in its own try/catch: on failure `users` stays `[]` and
the check still succeeds; only an auth-config failure reaches the outer
catch. -/
def mfaCheck (authResp : Except String JValue)
    (userQuery : Except String (List JValue)) : MfaCheckResult :=
  match authResp with
  | Except.error e =>
      { error := some e, mfaEnabledGlobally := none, users := []
        summary := { total := 0, passing := 0, failing := 0 } }
  | Except.ok cfg =>
      let users : List MfaUser :=
        match userQuery with
        | Except.ok rows => rows.map mkMfaUser
        | Except.error _ => []
      { error := none
        mfaEnabledGlobally := some (mfaEnabledValue cfg)
        users := users
        summary :=
          { total := users.length
            passing := (users.filter (fun u => u.status == "pass")).length
            failing := (users.filter (fun u => u.status == "fail")).length } }

/-- One mapped table of the RLS check (server.js lines 549-556). -/
structure RlsTable where
  id : String
  name : JValue
  schema : JValue
  rlsEnabled : JValue
  hasPolicies : JValue
  status : String
deriving Repr

/-- `tables.map(table => ({id, name, schema, rlsEnabled, hasPolicies,
status: table.rls_enabled ? 'pass' : 'fail'}))`. -/
def mkRlsTable (t : JValue) : RlsTable :=
  { id := jsToString (jsField t "schemaname") ++ "." ++ jsToString (jsField t "tablename")
    name := jsField t "tablename"
    schema := jsField t "schemaname"
    rlsEnabled := jsField t "rls_enabled"
    hasPolicies := jsField t "has_policies"
    status := if jsTruthy (jsField t "rls_enabled") then "pass" else "fail" }

/-- The value the RLS checker resolves to (server.js lines 585-589 on
success, 602-605 on failure). -/
structure RlsCheckResult where
  error : Option String
  tables : List RlsTable
  summary : Summary
deriving Repr

/-- The RLS checker (server.js lines 517-607), as a function of the
catalog query outcome.  Unlike MFA, a query failure fails the whole
checker (degraded `{error, summary: zeroed}` result). -/
def rlsCheck (queryResp : Except String (List JValue)) : RlsCheckResult :=
  match queryResp with
  | Except.error e =>
      { error := some e, tables := []
        summary := { total := 0, passing := 0, failing := 0 } }
  | Except.ok rows =>
      let publicTables := rows.map mkRlsTable
      { error := none
        tables := publicTables
        summary :=
          { total := publicTables.length
            passing := (publicTables.filter (fun t => t.status == "pass")).length
            failing := (publicTables.filter (fun t => t.status == "fail")).length } }

/-- The value the PITR checker resolves to (server.js lines 650-655 on
success, 668-673 on failure). -/
structure PitrCheckResult where
  error : Option String
  pitrEnabled : Bool
  status : String
  backupsConfig : Option JValue
deriving Repr

/-- The PITR checker (server.js lines 610-675), as a function of the
backups fetch outcome.  `backupsConfig = backupsResponse.data || {}` and
`pitrEnabled = backupsConfig.pitr_enabled === true` (strict equality). -/
def pitrCheck (backupsResp : Except String JValue) : PitrCheckResult :=
  match backupsResp with
  | Except.error e =>
      { error := some e, pitrEnabled := false, status := "error", backupsConfig := none }
  | Except.ok data =>
      let backupsConfig := jsOr data (JValue.obj [])
      let pitrEnabled := jsIsTrue (jsField backupsConfig "pitr_enabled")
      { error := none
        pitrEnabled := pitrEnabled
        status := if pitrEnabled then "pass" else "fail"
        backupsConfig := some backupsConfig }

/-! ## Check orchestrator -/

/-- `result.summary` of the compliance check handler. -/
structure ReportSummary where
  mfa : Summary
  rls : Summary
  pitr : Summary
  overallStatus : String
deriving Repr

/-- The report summary computed by the check orchestrator (server.js lines
686-698).  The `|| {total:0,...}` fallbacks are identities here because
both checkers return a summary on every path.  `overallStatus` is `'pass'`
iff `mfaResult.summary?.failing === 0 && rlsResult.summary?.failing === 0
&& pitrResult.status === 'pass'`. -/
def checkSummary (mfaResult : MfaCheckResult) (rlsResult : RlsCheckResult)
    (pitrResult : PitrCheckResult) : ReportSummary :=
  { mfa := mfaResult.summary
    rls := rlsResult.summary
    pitr :=
      { passing := if pitrResult.status == "pass" then 1 else 0
        failing := if pitrResult.status == "fail" then 1 else 0
        total := if pitrResult.status == "error" then 0 else 1 }
    overallStatus :=
      if mfaResult.summary.failing == 0 && rlsResult.summary.failing == 0 &&
          pitrResult.status == "pass" then "pass" else "fail" }

/-! ## Fix orchestrator -/

/-- Planning probe result for MFA (server.js lines 757-798): on fetch
failure the catch returns `{needsFix: false, error}`. -/
structure MfaProbe where
  needsFix : Bool
  error : Option String
deriving Repr

/-- `mfaNeedsFix = !authConfig || !(...)` (server.js lines 768-772). -/
def mfaNeedsFixOf (cfg : JValue) : Bool :=
  !jsTruthy cfg || !jsTruthy (mfaSignal cfg)

/-- The MFA status probe of the fix handler. -/
def mfaStatusProbe : Except String JValue → MfaProbe
  | Except.ok cfg => { needsFix := mfaNeedsFixOf cfg, error := none }
  | Except.error e => { needsFix := false, error := some e }

/-- Planning probe result for RLS (server.js lines 801-846): tables still
lacking row security; on query failure the catch returns
`{needsFix: false, tables: [], error}`. -/
structure RlsProbe where
  needsFix : Bool
  tables : List (JValue × JValue)
  error : Option String
deriving Repr

/-- The RLS status probe of the fix handler; each row is mapped to
`{schema: t.schemaname, name: t.tablename}`. -/
def rlsStatusProbe : Except String (List JValue) → RlsProbe
  | Except.ok rows =>
      { needsFix := rows.length > 0
        tables := rows.map (fun t => (jsField t "schemaname", jsField t "tablename"))
        error := none }
  | Except.error e => { needsFix := false, tables := [], error := some e }

/-- Planning probe result for PITR (server.js lines 849-886): on fetch
failure the catch returns `{needsFix: false, error}`. -/
structure PitrProbe where
  needsFix : Bool
  error : Option String
deriving Repr

/-- The PITR status probe; `pitrNeedsFix = !backupsConfig.pitr_enabled`
over `backupsConfig = backupsResponse.data || {}`. -/
def pitrStatusProbe : Except String JValue → PitrProbe
  | Except.ok data =>
      let backupsConfig := jsOr data (JValue.obj [])
      { needsFix := !jsTruthy (jsField backupsConfig "pitr_enabled"), error := none }
  | Except.error e => { needsFix := false, error := some e }

/-- A remote mutation request issued while applying fixes. -/
inductive RemoteRequest where
  | mfaPatchReq : RemoteRequest
  | rlsBatchReq : String → RemoteRequest
  | rlsTableReq : String → RemoteRequest
  | pitrSqlReq : RemoteRequest
  | pitrPatchReq : RemoteRequest
deriving Repr, DecidableEq

/-- `fixes.mfa` after the fix phase. -/
structure MfaFixState where
  needed : Bool
  applied : Bool
  success : Bool
  error : Option String
deriving Repr

/-- One entry of `fixes.rls.tables`. -/
structure RlsTableFix where
  table : String
  success : Bool
  error : Option String
deriving Repr

/-- `fixes.rls` after the fix phase. -/
structure RlsFixState where
  needed : Bool
  tableCount : Nat
  applied : Bool
  success : Bool
  tables : List RlsTableFix
  error : Option String
deriving Repr

/-- `fixes.pitr` after the fix phase. -/
structure PitrFixState where
  needed : Bool
  applied : Bool
  success : Bool
  error : Option String
deriving Repr

/-- `${table.schema}.${table.name}` for a planned RLS table. -/
def tableKey (t : JValue × JValue) : String :=
  jsToString t.1 ++ "." ++ jsToString t.2

/-- The batched RLS transaction text (server.js lines 1027-1032). -/
def rlsBatchQuery (tables : List (JValue × JValue)) : String :=
  "BEGIN;\n" ++
    String.join (tables.map (fun t =>
      "ALTER TABLE \"" ++ jsToString t.1 ++ "\".\"" ++ jsToString t.2 ++
        "\" ENABLE ROW LEVEL SECURITY;\n")) ++
    "COMMIT;"

/-- The MFA fix step (server.js lines 952-1010): one PATCH when needed. -/
def runMfaFix (needed : Bool) (patch : Except String Unit) :
    MfaFixState × List RemoteRequest :=
  if needed then
    match patch with
    | Except.ok _ =>
        ({ needed := needed, applied := true, success := true, error := none },
         [RemoteRequest.mfaPatchReq])
    | Except.error e =>
        ({ needed := needed, applied := true, success := false, error := some e },
         [RemoteRequest.mfaPatchReq])
  else
    ({ needed := needed, applied := false, success := false, error := none }, [])

/-- The RLS fix step (server.js lines 1013-1153): one batched transaction;
on its failure, one independent `ALTER TABLE` per planned table, after
which `success = fixes.rls.tables.every(t => t.success)` (lines
1125-1126).  Per-table promises resolve even on error, so the fallback
itself never throws. -/
def runRlsFix (needed : Bool) (tables : List (JValue × JValue))
    (batch : Except String Unit)
    (tableExec : JValue × JValue → Except String Unit) :
    RlsFixState × List RemoteRequest :=
  if needed then
    match batch with
    | Except.ok _ =>
        ({ needed := needed, tableCount := tables.length, applied := true
           success := true
           tables := tables.map (fun t =>
             { table := tableKey t, success := true, error := none })
           error := none },
         [RemoteRequest.rlsBatchReq (rlsBatchQuery tables)])
    | Except.error e =>
        let results := tables.map (fun t =>
          match tableExec t with
          | Except.ok _ =>
              ({ table := tableKey t, success := true, error := none } : RlsTableFix)
          | Except.error te =>
              { table := tableKey t, success := false, error := some te })
        ({ needed := needed, tableCount := tables.length, applied := true
           success := results.all (fun t => t.success)
           tables := results
           error := some e },
         RemoteRequest.rlsBatchReq (rlsBatchQuery tables) ::
           tables.map (fun t => RemoteRequest.rlsTableReq (tableKey t)))
  else
    ({ needed := needed, tableCount := tables.length, applied := false
       success := false, tables := [], error := none }, [])

/-- The PITR fix step (server.js lines 1156-1242): SQL replication-slot
creation first, then a PATCH of the backups config on failure. -/
def runPitrFix (needed : Bool) (sqlExec : Except String Unit)
    (patch : Except String Unit) : PitrFixState × List RemoteRequest :=
  if needed then
    match sqlExec with
    | Except.ok _ =>
        ({ needed := needed, applied := true, success := true, error := none },
         [RemoteRequest.pitrSqlReq])
    | Except.error _ =>
        match patch with
        | Except.ok _ =>
            ({ needed := needed, applied := true, success := true, error := none },
             [RemoteRequest.pitrSqlReq, RemoteRequest.pitrPatchReq])
        | Except.error e =>
            ({ needed := needed, applied := true, success := false, error := some e },
             [RemoteRequest.pitrSqlReq, RemoteRequest.pitrPatchReq])
  else
    ({ needed := needed, applied := false, success := false, error := none }, [])

/-- Per-category summary label for MFA (server.js lines 1250-1251). -/
def mfaSummaryLabel (f : MfaFixState) : String :=
  if !f.needed then "no_action_needed"
  else if f.success then "fixed" else "failed"

/-- Per-category summary label for RLS (server.js lines 1252-1254):
`!needed ? 'no_action_needed' : (success ? 'fixed' : (tables.some(t =>
t.success) ? 'partially_fixed' : 'failed'))`. -/
def rlsSummaryLabel (f : RlsFixState) : String :=
  if !f.needed then "no_action_needed"
  else if f.success then "fixed"
  else if f.tables.any (fun t => t.success) then "partially_fixed"
  else "failed"

/-- Per-category summary label for PITR (server.js lines 1255-1256). -/
def pitrSummaryLabel (f : PitrFixState) : String :=
  if !f.needed then "no_action_needed"
  else if f.success then "fixed" else "failed"

/-- The outcomes of every remote interaction a fix call can perform. -/
structure FixWorld where
  authConfigResp : Except String JValue
  rlsMissingTablesResp : Except String (List JValue)
  backupsResp : Except String JValue
  mfaPatchResp : Except String Unit
  rlsBatchResp : Except String Unit
  rlsTableResp : JValue × JValue → Except String Unit
  pitrSqlResp : Except String Unit
  pitrPatchResp : Except String Unit

/-- The fix handler's response together with the remote mutation requests
it issued. -/
structure FixResult where
  mfa : MfaFixState
  rls : RlsFixState
  pitr : PitrFixState
  summaryMfa : String
  summaryRls : String
  summaryPitr : String
  requests : List RemoteRequest
deriving Repr

/-- The fix orchestrator (server.js lines 730-1294): plan from fresh
status probes intersected with the opt-in flags, run the three fix steps,
and label each category. -/
def fixCompliance (w : FixWorld) (fixMfa fixRls fixPitr : Bool) : FixResult :=
  let mp := mfaStatusProbe w.authConfigResp
  let rp := rlsStatusProbe w.rlsMissingTablesResp
  let pp := pitrStatusProbe w.backupsResp
  let mf := runMfaFix (mp.needsFix && fixMfa) w.mfaPatchResp
  let rf := runRlsFix (rp.needsFix && fixRls) rp.tables w.rlsBatchResp w.rlsTableResp
  let pf := runPitrFix (pp.needsFix && fixPitr) w.pitrSqlResp w.pitrPatchResp
  { mfa := mf.1, rls := rf.1, pitr := pf.1
    summaryMfa := mfaSummaryLabel mf.1
    summaryRls := rlsSummaryLabel rf.1
    summaryPitr := pitrSummaryLabel pf.1
    requests := mf.2 ++ rf.2 ++ pf.2 }

/-- Whether a request targets the MFA category. -/
def isMfaRequest : RemoteRequest → Bool
  | RemoteRequest.mfaPatchReq => true
  | _ => false

/-- Whether a request targets the RLS category. -/
def isRlsRequest : RemoteRequest → Bool
  | RemoteRequest.rlsBatchReq _ => true
  | RemoteRequest.rlsTableReq _ => true
  | _ => false

/-- Whether a request targets the PITR category. -/
def isPitrRequest : RemoteRequest → Bool
  | RemoteRequest.pitrSqlReq => true
  | RemoteRequest.pitrPatchReq => true
  | _ => false

/-- A fix call in which all three planning probes fail; the fix-execution
outcomes are immaterial because no fix is reached. -/
def probesDownWorld : FixWorld :=
  { authConfigResp := Except.error "auth fetch failed"
    rlsMissingTablesResp := Except.error "query failed"
    backupsResp := Except.error "backups fetch failed"
    mfaPatchResp := Except.ok ()
    rlsBatchResp := Except.ok ()
    rlsTableResp := fun _ => Except.ok ()
    pitrSqlResp := Except.ok ()
    pitrPatchResp := Except.ok () }

/-! ## Helper lemmas -/

/-- Counting elements labelled `"pass"` and `"fail"` partitions a list
whose labels all lie in that two-element set. -/
lemma length_filter_pass_add_fail {α : Type} (f : α → String) (l : List α) :
    (∀ x ∈ l, f x = "pass" ∨ f x = "fail") →
    (l.filter (fun x => f x == "pass")).length +
      (l.filter (fun x => f x == "fail")).length = l.length := by
  induction l with
  | nil => intro _; simp
  | cons a t ih =>
    intro h
    have ha := h a (List.mem_cons_self a t)
    have ih' := ih (fun x hx => h x (List.mem_cons_of_mem a hx))
    rcases ha with hp | hf
    · have e1 : (f a == "pass") = true := by rw [hp]; decide
      have e2 : (f a == "fail") = false := by rw [hp]; decide
      simp only [List.filter_cons, e1, e2, if_true, if_false, List.length_cons]
      simp only [Bool.false_eq_true, if_false]
      omega
    · have e1 : (f a == "pass") = false := by rw [hf]; decide
      have e2 : (f a == "fail") = true := by rw [hf]; decide
      simp only [List.filter_cons, e1, e2, if_true, if_false, List.length_cons]
      simp only [Bool.false_eq_true, if_false]
      omega

/-- Every mapped MFA user is labelled `"pass"` or `"fail"`. -/
lemma mkMfaUser_status_cases (u : JValue) :
    (mkMfaUser u).status = "pass" ∨ (mkMfaUser u).status = "fail" := by
  by_cases h : jsTruthy (jsField u "has_mfa") <;> simp [mkMfaUser, h]

/-- Every mapped RLS table is labelled `"pass"` or `"fail"`. -/
lemma mkRlsTable_status_cases (t : JValue) :
    (mkRlsTable t).status = "pass" ∨ (mkRlsTable t).status = "fail" := by
  by_cases h : jsTruthy (jsField t "rls_enabled") <;> simp [mkRlsTable, h]

/-- Defaulting the backups payload with `|| {}` does not change any
property read from it. -/
lemma jsField_jsOr_empty (data : JValue) (k : String) :
    jsField (jsOr data (JValue.obj [])) k = jsField data k := by
  cases data with
  | undefined => rfl
  | null => rfl
  | bool b => cases b <;> rfl
  | num n =>
      by_cases h : n = 0
      · subst h; rfl
      · simp [jsOr, jsTruthy, h]
  | str s =>
      by_cases h : s = ""
      · subst h; rfl
      · simp [jsOr, jsTruthy, h]
  | arr xs => rfl
  | obj fs => rfl

/-- Strict equality against the literal `true` holds exactly on the
boolean value `true`. -/
lemma jsIsTrue_iff (v : JValue) : jsIsTrue v = true ↔ v = JValue.bool true := by
  cases v <;> simp [jsIsTrue]

/-! ## Claim theorems -/

/-- C1: the report's `summary.overallStatus` is `'pass'` iff the MFA
summary's failing count is 0, the RLS summary's failing count is 0, and
the PITR checker's status is `'pass'`; in every other case it is
`'fail'`. -/
theorem overallStatus_pass_iff (a : Except String JValue)
    (u rq : Except String (List JValue)) (b : Except String JValue) :
    (((checkSummary (mfaCheck a u) (rlsCheck rq) (pitrCheck b)).overallStatus = "pass") ↔
      ((mfaCheck a u).summary.failing = 0 ∧ (rlsCheck rq).summary.failing = 0 ∧
        (pitrCheck b).status = "pass")) ∧
    ((checkSummary (mfaCheck a u) (rlsCheck rq) (pitrCheck b)).overallStatus = "pass" ∨
      (checkSummary (mfaCheck a u) (rlsCheck rq) (pitrCheck b)).overallStatus = "fail") := by
  constructor
  · unfold checkSummary
    by_cases h1 : (mfaCheck a u).summary.failing = 0 <;>
      by_cases h2 : (rlsCheck rq).summary.failing = 0 <;>
      by_cases h3 : (pitrCheck b).status = "pass" <;>
      simp [h1, h2, h3]
  · unfold checkSummary
    dsimp only
    split
    · exact Or.inl rfl
    · exact Or.inr rfl

/-- C3: when the per-user SQL query fails, the MFA checker returns an
empty user list and a zeroed summary, does not fail as a whole, and still
reports `mfaEnabledGlobally` from the auth-config fetch alone (the same
value any successful user query would give). -/
theorem mfaCheck_userQuery_failure (cfg : JValue) (e : String) (rows : List JValue) :
    (mfaCheck (Except.ok cfg) (Except.error e)).users = [] ∧
    (mfaCheck (Except.ok cfg) (Except.error e)).summary =
      { total := 0, passing := 0, failing := 0 } ∧
    (mfaCheck (Except.ok cfg) (Except.error e)).error = none ∧
    (mfaCheck (Except.ok cfg) (Except.error e)).mfaEnabledGlobally =
      some (mfaEnabledValue cfg) ∧
    (mfaCheck (Except.ok cfg) (Except.error e)).mfaEnabledGlobally =
      (mfaCheck (Except.ok cfg) (Except.ok rows)).mfaEnabledGlobally :=
  ⟨rfl, rfl, rfl, rfl, rfl⟩

/-- C4: `pitrEnabled` is `true` iff the upstream `pitr_enabled` field is
exactly the boolean `true`; any other value — the string `"true"` and the
number `1` included — yields `pitrEnabled = false` and status `'fail'`. -/
theorem pitrEnabled_strict_true (data : JValue) :
    (((pitrCheck (Except.ok data)).pitrEnabled = true) ↔
      jsField data "pitr_enabled" = JValue.bool true) ∧
    (((pitrCheck (Except.ok data)).pitrEnabled = false) ↔
      (pitrCheck (Except.ok data)).status = "fail") ∧
    (pitrCheck (Except.ok (JValue.obj [("pitr_enabled", JValue.str "true")]))).pitrEnabled
      = false ∧
    (pitrCheck (Except.ok (JValue.obj [("pitr_enabled", JValue.str "true")]))).status
      = "fail" ∧
    (pitrCheck (Except.ok (JValue.obj [("pitr_enabled", JValue.num 1)]))).pitrEnabled
      = false ∧
    (pitrCheck (Except.ok (JValue.obj [("pitr_enabled", JValue.num 1)]))).status
      = "fail" := by
  refine ⟨?_, ?_, rfl, rfl, rfl, rfl⟩
  · rw [show (pitrCheck (Except.ok data)).pitrEnabled =
        jsIsTrue (jsField (jsOr data (JValue.obj [])) "pitr_enabled") from rfl]
    rw [jsField_jsOr_empty]
    exact jsIsTrue_iff _
  · by_cases h : jsIsTrue (jsField (jsOr data (JValue.obj [])) "pitr_enabled") <;>
      simp [pitrCheck, h]

/-- C5: a mapped RLS table's status is `'pass'` iff its `rls_enabled`
flag is set (JS-truthy); the status is always `'pass'` or `'fail'`, is
determined by `rls_enabled` alone (`has_policies` never affects it), and
the checker's table list is exactly the row list mapped this way. -/
theorem rlsTable_status (row other : JValue) (rows : List JValue) :
    (((mkRlsTable row).status = "pass") ↔ jsTruthy (jsField row "rls_enabled") = true) ∧
    ((mkRlsTable row).status = "pass" ∨ (mkRlsTable row).status = "fail") ∧
    (jsField row "rls_enabled" = jsField other "rls_enabled" →
      (mkRlsTable row).status = (mkRlsTable other).status) ∧
    ((rlsCheck (Except.ok rows)).tables = rows.map mkRlsTable) := by
  refine ⟨?_, mkRlsTable_status_cases row, ?_, rfl⟩
  · by_cases h : jsTruthy (jsField row "rls_enabled") <;> simp [mkRlsTable, h]
  · intro h
    simp only [mkRlsTable, h]

/-- C5 witness: two concrete rows agreeing on `rls_enabled` but differing
on `has_policies` get the same status, and a row with RLS enabled and no
policies passes. -/
theorem rlsTable_status_witness :
    (mkRlsTable (JValue.obj [("rls_enabled", JValue.bool true),
        ("has_policies", JValue.bool false)])).status =
      (mkRlsTable (JValue.obj [("rls_enabled", JValue.bool true),
        ("has_policies", JValue.bool true)])).status ∧
    (mkRlsTable (JValue.obj [("rls_enabled", JValue.bool true),
        ("has_policies", JValue.bool false)])).status = "pass" :=
  ⟨(rlsTable_status
      (JValue.obj [("rls_enabled", JValue.bool true), ("has_policies", JValue.bool false)])
      (JValue.obj [("rls_enabled", JValue.bool true), ("has_policies", JValue.bool true)])
      []).2.2.1 rfl,
    rfl⟩

/-- C6: the query executor's response normalization unwraps one level of
a nested array-of-arrays, keeps any other array as the flat row list, and
yields empty rows for an absent or non-array payload. -/
theorem normalizeResults_eq_spec (data : JValue) :
    normalizeResults data = normalizeResultsSpec data := by
  cases data with
  | arr xs =>
      cases xs with
      | nil =>
          simp [normalizeResults, normalizeResultsSpec, jsTruthy, jsIsArray,
            jsLength, jsIndex0, jsElems]
      | cons h t =>
          cases h <;>
            simp [normalizeResults, normalizeResultsSpec, jsTruthy, jsIsArray,
              jsLength, jsIndex0, jsElems]
  | undefined => simp [normalizeResults, normalizeResultsSpec, jsTruthy]
  | null => simp [normalizeResults, normalizeResultsSpec, jsTruthy]
  | bool b => simp [normalizeResults, normalizeResultsSpec, jsIsArray]
  | num n => simp [normalizeResults, normalizeResultsSpec, jsIsArray]
  | str s => simp [normalizeResults, normalizeResultsSpec, jsIsArray]
  | obj fs => simp [normalizeResults, normalizeResultsSpec, jsIsArray]

/-- C7: on a failed query the executor appends a failure evidence entry
after the attempt entry and re-raises the same error; it never resolves
to a row list. -/
theorem executeQuery_failure_reraises (e : String) (log : List Evidence) :
    (executeQuery (Except.error e) log).1 = Except.error e ∧
    (executeQuery (Except.error e) log).2 =
      log ++ [{ action := "sql_query_attempt", status := "info" },
              { action := "sql_query_failure", status := "error" }] ∧
    ∀ rows : List JValue, (executeQuery (Except.error e) log).1 ≠ Except.ok rows := by
  refine ⟨rfl, ?_, ?_⟩
  · simp [executeQuery]
  · intro rows h
    exact Except.noConfusion h

/-- C7 witness: the executor's behaviour on a concrete failed query. -/
theorem executeQuery_failure_reraises_witness :
    (executeQuery (Except.error "upstream 500") []).1 = Except.error "upstream 500" :=
  (executeQuery_failure_reraises "upstream 500" []).1

/-- C8: `passing + failing = total` in every MFA, RLS and report-PITR
summary; a failed MFA or RLS probe yields the zeroed summary, and a
failed PITR probe yields the zeroed report-PITR summary. -/
theorem summary_counts_invariant (a : Except String JValue)
    (u rq : Except String (List JValue)) (b : Except String JValue) (e : String) :
    ((mfaCheck a u).summary.passing + (mfaCheck a u).summary.failing =
      (mfaCheck a u).summary.total) ∧
    ((rlsCheck rq).summary.passing + (rlsCheck rq).summary.failing =
      (rlsCheck rq).summary.total) ∧
    ((checkSummary (mfaCheck a u) (rlsCheck rq) (pitrCheck b)).pitr.passing +
      (checkSummary (mfaCheck a u) (rlsCheck rq) (pitrCheck b)).pitr.failing =
      (checkSummary (mfaCheck a u) (rlsCheck rq) (pitrCheck b)).pitr.total) ∧
    ((mfaCheck (Except.error e) u).summary =
      { total := 0, passing := 0, failing := 0 }) ∧
    ((rlsCheck (Except.error e)).summary =
      { total := 0, passing := 0, failing := 0 }) ∧
    ((checkSummary (mfaCheck a u) (rlsCheck rq) (pitrCheck (Except.error e))).pitr =
      { total := 0, passing := 0, failing := 0 }) := by
  refine ⟨?_, ?_, ?_, rfl, rfl, ?_⟩
  · cases a with
    | error _ => rfl
    | ok cfg =>
        cases u with
        | error _ => rfl
        | ok rows =>
            show ((rows.map mkMfaUser).filter (fun x => MfaUser.status x == "pass")).length +
              ((rows.map mkMfaUser).filter (fun x => MfaUser.status x == "fail")).length =
              (rows.map mkMfaUser).length
            exact length_filter_pass_add_fail MfaUser.status (rows.map mkMfaUser)
              (fun x hx => by
                obtain ⟨row, _, rfl⟩ := List.mem_map.mp hx
                exact mkMfaUser_status_cases row)
  · cases rq with
    | error _ => rfl
    | ok rows =>
        show ((rows.map mkRlsTable).filter (fun x => RlsTable.status x == "pass")).length +
          ((rows.map mkRlsTable).filter (fun x => RlsTable.status x == "fail")).length =
          (rows.map mkRlsTable).length
        exact length_filter_pass_add_fail RlsTable.status (rows.map mkRlsTable)
          (fun x hx => by
            obtain ⟨row, _, rfl⟩ := List.mem_map.mp hx
            exact mkRlsTable_status_cases row)
  · cases b with
    | error _ => simp [checkSummary, pitrCheck]
    | ok data =>
        by_cases h : jsIsTrue (jsField (jsOr data (JValue.obj [])) "pitr_enabled") <;>
          simp [checkSummary, pitrCheck, h]
  · simp [checkSummary, pitrCheck]

/-- The `needed` field the RLS fix step records is the flag it was given. -/
lemma runRlsFix_needed (n : Bool) (ts : List (JValue × JValue))
    (b : Except String Unit) (te : JValue × JValue → Except String Unit) :
    (runRlsFix n ts b te).1.needed = n := by
  cases n with
  | false => rfl
  | true => cases b <;> rfl

/-- After a failed batch, the category's success is the conjunction of
the per-table fallback outcomes. -/
lemma runRlsFix_batch_error_success (ts : List (JValue × JValue)) (e : String)
    (te : JValue × JValue → Except String Unit) :
    (runRlsFix true ts (Except.error e) te).1.success =
      (ts.map (fun t =>
        match te t with
        | Except.ok _ => ({ table := tableKey t, success := true, error := none } : RlsTableFix)
        | Except.error er =>
            { table := tableKey t, success := false, error := some er })).all
        (fun t => t.success) := rfl

/-- C2: with the RLS category needed, the summary label is `'fixed'`
whenever the fix succeeded — in particular when the batch transaction
failed but every individual per-table `ALTER TABLE` succeeded; when not
all tables succeeded, the label is `'partially_fixed'` if at least one
table succeeded and `'failed'` if none did. -/
theorem rls_fix_label (tables : List (JValue × JValue)) (batch : Except String Unit)
    (tableExec : JValue × JValue → Except String Unit) (e : String) :
    ((runRlsFix true tables batch tableExec).1.success = true →
      rlsSummaryLabel (runRlsFix true tables batch tableExec).1 = "fixed") ∧
    ((∀ t ∈ tables, tableExec t = Except.ok ()) →
      rlsSummaryLabel (runRlsFix true tables (Except.error e) tableExec).1 = "fixed") ∧
    ((runRlsFix true tables batch tableExec).1.success = false →
      (runRlsFix true tables batch tableExec).1.tables.any (fun t => t.success) = true →
      rlsSummaryLabel (runRlsFix true tables batch tableExec).1 = "partially_fixed") ∧
    ((runRlsFix true tables batch tableExec).1.success = false →
      (runRlsFix true tables batch tableExec).1.tables.any (fun t => t.success) = false →
      rlsSummaryLabel (runRlsFix true tables batch tableExec).1 = "failed") := by
  refine ⟨?_, ?_, ?_, ?_⟩
  · intro h
    simp [rlsSummaryLabel, runRlsFix_needed true tables batch tableExec, h]
  · intro hall
    have hsucc : (runRlsFix true tables (Except.error e) tableExec).1.success = true := by
      rw [runRlsFix_batch_error_success, List.all_eq_true]
      intro x hx
      obtain ⟨t, ht, rfl⟩ := List.mem_map.mp hx
      rw [hall t ht]
    simp [rlsSummaryLabel, runRlsFix_needed true tables (Except.error e) tableExec, hsucc]
  · intro hs hany
    simp [rlsSummaryLabel, runRlsFix_needed true tables batch tableExec, hs, hany]
  · intro hs hnone
    simp [rlsSummaryLabel, runRlsFix_needed true tables batch tableExec, hs, hnone]

/-- C2 witness: a concrete fix where the batch transaction fails but both
per-table statements succeed is labelled `fixed`. -/
theorem rls_fix_label_witness :
    rlsSummaryLabel (runRlsFix true
      [(JValue.str "public", JValue.str "users"), (JValue.str "public", JValue.str "orders")]
      (Except.error "transaction failed") (fun _ => Except.ok ())).1 = "fixed" :=
  (rls_fix_label
    [(JValue.str "public", JValue.str "users"), (JValue.str "public", JValue.str "orders")]
    (Except.error "transaction failed") (fun _ => Except.ok ()) "transaction failed").2.1
    (fun _t _ => rfl)

/-- The fix handler's per-category summary labels and issued requests,
written out over the three fix steps. -/
lemma fixCompliance_parts (w : FixWorld) (fm fr fp : Bool) :
    (fixCompliance w fm fr fp).summaryMfa =
      mfaSummaryLabel (runMfaFix ((mfaStatusProbe w.authConfigResp).needsFix && fm)
        w.mfaPatchResp).1 ∧
    (fixCompliance w fm fr fp).summaryRls =
      rlsSummaryLabel (runRlsFix ((rlsStatusProbe w.rlsMissingTablesResp).needsFix && fr)
        (rlsStatusProbe w.rlsMissingTablesResp).tables w.rlsBatchResp w.rlsTableResp).1 ∧
    (fixCompliance w fm fr fp).summaryPitr =
      pitrSummaryLabel (runPitrFix ((pitrStatusProbe w.backupsResp).needsFix && fp)
        w.pitrSqlResp w.pitrPatchResp).1 ∧
    (fixCompliance w fm fr fp).requests =
      (runMfaFix ((mfaStatusProbe w.authConfigResp).needsFix && fm) w.mfaPatchResp).2 ++
      (runRlsFix ((rlsStatusProbe w.rlsMissingTablesResp).needsFix && fr)
        (rlsStatusProbe w.rlsMissingTablesResp).tables w.rlsBatchResp w.rlsTableResp).2 ++
      (runPitrFix ((pitrStatusProbe w.backupsResp).needsFix && fp)
        w.pitrSqlResp w.pitrPatchResp).2 :=
  ⟨rfl, rfl, rfl, rfl⟩

/-- A fix step that is not needed performs nothing. -/
lemma runMfaFix_not_needed (p : Except String Unit) :
    runMfaFix false p =
      ({ needed := false, applied := false, success := false, error := none }, []) := rfl

/-- A fix step that is not needed performs nothing. -/
lemma runRlsFix_not_needed (ts : List (JValue × JValue)) (b : Except String Unit)
    (te : JValue × JValue → Except String Unit) :
    runRlsFix false ts b te =
      ({ needed := false, tableCount := ts.length, applied := false, success := false,
         tables := [], error := none }, []) := rfl

/-- A fix step that is not needed performs nothing. -/
lemma runPitrFix_not_needed (s p : Except String Unit) :
    runPitrFix false s p =
      ({ needed := false, applied := false, success := false, error := none }, []) := rfl

/-- Every request the MFA fix step issues targets MFA. -/
lemma runMfaFix_requests (n : Bool) (p : Except String Unit) :
    ∀ r ∈ (runMfaFix n p).2, isMfaRequest r = true := by
  intro r hr
  cases n with
  | false => simp [runMfaFix] at hr
  | true =>
      cases p with
      | ok v => simp [runMfaFix] at hr; subst hr; rfl
      | error e => simp [runMfaFix] at hr; subst hr; rfl

/-- Every request the RLS fix step issues targets RLS. -/
lemma runRlsFix_requests (n : Bool) (ts : List (JValue × JValue))
    (b : Except String Unit) (te : JValue × JValue → Except String Unit) :
    ∀ r ∈ (runRlsFix n ts b te).2, isRlsRequest r = true := by
  intro r hr
  cases n with
  | false => simp [runRlsFix] at hr
  | true =>
      cases b with
      | ok v => simp [runRlsFix] at hr; subst hr; rfl
      | error e =>
          simp [runRlsFix] at hr
          rcases hr with h | ⟨t, ht, ⟨_, heq⟩⟩
          · subst h; rfl
          · subst heq; rfl

/-- Every request the PITR fix step issues targets PITR. -/
lemma runPitrFix_requests (n : Bool) (s p : Except String Unit) :
    ∀ r ∈ (runPitrFix n s p).2, isPitrRequest r = true := by
  intro r hr
  cases n with
  | false => simp [runPitrFix] at hr
  | true =>
      cases s with
      | ok v => simp [runPitrFix] at hr; subst hr; rfl
      | error e =>
          cases p with
          | ok v =>
              simp [runPitrFix] at hr
              rcases hr with h | h <;> (subst h; rfl)
          | error e2 =>
              simp [runPitrFix] at hr
              rcases hr with h | h <;> (subst h; rfl)

/-- Request categories are mutually exclusive. -/
lemma request_categories (r : RemoteRequest) :
    (isRlsRequest r = true → isMfaRequest r = false) ∧
    (isPitrRequest r = true → isMfaRequest r = false) ∧
    (isMfaRequest r = true → isRlsRequest r = false) ∧
    (isPitrRequest r = true → isRlsRequest r = false) ∧
    (isMfaRequest r = true → isPitrRequest r = false) ∧
    (isRlsRequest r = true → isPitrRequest r = false) := by
  cases r <;> simp [isMfaRequest, isRlsRequest, isPitrRequest]

/-- C9: when a per-category status probe throws during planning, that
category's `needsFix` becomes `false`, the category is reported
`'no_action_needed'`, and no remediation request is issued for it. -/
theorem fixProbe_error_no_action (w : FixWorld) (fm fr fp : Bool)
    (e1 e2 e3 : String) :
    (w.authConfigResp = Except.error e1 →
      (mfaStatusProbe w.authConfigResp).needsFix = false ∧
      (fixCompliance w fm fr fp).summaryMfa = "no_action_needed" ∧
      (fixCompliance w fm fr fp).requests.all (fun r => !isMfaRequest r) = true) ∧
    (w.rlsMissingTablesResp = Except.error e2 →
      (rlsStatusProbe w.rlsMissingTablesResp).needsFix = false ∧
      (fixCompliance w fm fr fp).summaryRls = "no_action_needed" ∧
      (fixCompliance w fm fr fp).requests.all (fun r => !isRlsRequest r) = true) ∧
    (w.backupsResp = Except.error e3 →
      (pitrStatusProbe w.backupsResp).needsFix = false ∧
      (fixCompliance w fm fr fp).summaryPitr = "no_action_needed" ∧
      (fixCompliance w fm fr fp).requests.all (fun r => !isPitrRequest r) = true) := by
  refine ⟨?_, ?_, ?_⟩
  · intro h
    refine ⟨by simp [mfaStatusProbe, h], ?_, ?_⟩
    · simp only [(fixCompliance_parts w fm fr fp).1, h]
      simp [mfaStatusProbe, runMfaFix_not_needed, mfaSummaryLabel]
    · simp only [(fixCompliance_parts w fm fr fp).2.2.2, h]
      simp only [mfaStatusProbe, Bool.false_and, runMfaFix_not_needed, List.nil_append]
      rw [List.all_eq_true]
      intro r hr
      rcases List.mem_append.mp hr with h1 | h2
      · simp [(request_categories r).1 (runRlsFix_requests _ _ _ _ r h1)]
      · simp [(request_categories r).2.1 (runPitrFix_requests _ _ _ r h2)]
  · intro h
    refine ⟨by simp [rlsStatusProbe, h], ?_, ?_⟩
    · simp only [(fixCompliance_parts w fm fr fp).2.1, h]
      simp [rlsStatusProbe, runRlsFix_not_needed, rlsSummaryLabel]
    · simp only [(fixCompliance_parts w fm fr fp).2.2.2, h]
      simp only [rlsStatusProbe, Bool.false_and, runRlsFix_not_needed, List.append_nil]
      rw [List.all_eq_true]
      intro r hr
      rcases List.mem_append.mp hr with h1 | h2
      · simp [(request_categories r).2.2.1 (runMfaFix_requests _ _ r h1)]
      · simp [(request_categories r).2.2.2.1 (runPitrFix_requests _ _ _ r h2)]
  · intro h
    refine ⟨by simp [pitrStatusProbe, h], ?_, ?_⟩
    · simp only [(fixCompliance_parts w fm fr fp).2.2.1, h]
      simp [pitrStatusProbe, runPitrFix_not_needed, pitrSummaryLabel]
    · simp only [(fixCompliance_parts w fm fr fp).2.2.2, h]
      simp only [pitrStatusProbe, Bool.false_and, runPitrFix_not_needed, List.append_nil]
      rw [List.all_eq_true]
      intro r hr
      rcases List.mem_append.mp hr with h1 | h2
      · simp [(request_categories r).2.2.2.2.1 (runMfaFix_requests _ _ r h1)]
      · simp [(request_categories r).2.2.2.2.2 (runRlsFix_requests _ _ _ _ r h2)]

/-- C9 witness: in a fix call where all three planning probes fail, every
category is `no_action_needed` and no remote mutation request is made. -/
theorem fixProbe_error_no_action_witness :
    (fixCompliance probesDownWorld true true true).summaryMfa = "no_action_needed" ∧
    (fixCompliance probesDownWorld true true true).summaryRls = "no_action_needed" ∧
    (fixCompliance probesDownWorld true true true).summaryPitr = "no_action_needed" ∧
    (fixCompliance probesDownWorld true true true).requests = [] := by
  have h := fixProbe_error_no_action probesDownWorld true true true
    "auth fetch failed" "query failed" "backups fetch failed"
  exact ⟨(h.1 rfl).2.1, (h.2.1 rfl).2.1, (h.2.2 rfl).2.1, rfl⟩

/-- C10: a whole-checker failure of MFA (or RLS) degrades to a summary
with `failing = 0`, so it never by itself makes `overallStatus` `'fail'`:
with an errored MFA probe, zero failing RLS tables and a passing PITR
probe the report is still `'pass'`; a PITR probe error, by contrast,
forces `'fail'` whatever the other two results are. -/
theorem errored_checker_not_overall_fail (e eb : String)
    (u rq : Except String (List JValue)) (b : JValue)
    (mR : MfaCheckResult) (rR : RlsCheckResult) :
    ((mfaCheck (Except.error e) u).summary.failing = 0) ∧
    ((rlsCheck (Except.error e)).summary.failing = 0) ∧
    ((rlsCheck rq).summary.failing = 0 →
      (pitrCheck (Except.ok b)).status = "pass" →
      (checkSummary (mfaCheck (Except.error e) u) (rlsCheck rq)
        (pitrCheck (Except.ok b))).overallStatus = "pass") ∧
    ((checkSummary mR rR (pitrCheck (Except.error eb))).overallStatus = "fail") := by
  refine ⟨rfl, rfl, ?_, ?_⟩
  · intro h1 h2
    simp [checkSummary, mfaCheck, h1, h2]
  · simp [checkSummary, pitrCheck]

/-- C10 witness: a concrete report whose MFA payload carries an error
(auth-config fetch failed) still has `overallStatus = 'pass'` when the
RLS table list is clean and PITR is enabled. -/
theorem errored_checker_not_overall_fail_witness :
    (checkSummary (mfaCheck (Except.error "mfa probe down") (Except.error "q"))
      (rlsCheck (Except.ok []))
      (pitrCheck (Except.ok (JValue.obj [("pitr_enabled", JValue.bool true)])))).overallStatus
      = "pass" := by
  have h := errored_checker_not_overall_fail "mfa probe down" "x"
    (Except.error "q") (Except.ok [])
    (JValue.obj [("pitr_enabled", JValue.bool true)])
    (mfaCheck (Except.error "m") (Except.error "q")) (rlsCheck (Except.ok []))
  exact h.2.2.1 rfl rfl

end DelveSB
